import Mathlib

/-!
# Gold purity checker — shallow embedding and verification

A shallow embedding of the core computation of `src/app/page.tsx`
(the `GoldPurityChecker` component): the pure functions `clamp`,
`parseKaratLabel`, `getBadgeForRange`, `computeFinalRange`,
`getDeltaIndicator`, the static `conversionTable`, and the
`calculatePurity` pipeline.

Numbers are modelled as rationals `ℚ` (every constant in the source is a
short decimal, and every claim-relevant comparison and displayed value is
exact at these inputs).  JavaScript's `Number.parseFloat` producing `NaN`
for a non-numeric field is modelled by `Option ℚ` inputs (`none` = not a
number).  The two `alert` branches of `calculatePurity` are modelled as
typed errors (`CalcError`), matching the spec's error taxonomy; a run
either returns a full `CalcResult` or an error, never a partial result.
-/

namespace GoldPurity

/-- One row of the source's `conversionTable` (`ConversionRow` in the source):
a karat band with its label, percent and inclusive density range. -/
structure ConversionRow where
  karat : String
  percent : ℚ
  minDensity : ℚ
  maxDensity : ℚ
deriving DecidableEq

/-- Source `clamp(n, min, max) = Math.min(max, Math.max(min, n))`
(the source's parameter names `min`/`max` are renamed `lo`/`hi`). -/
def clamp (n lo hi : ℚ) : ℚ := min hi (max lo n)

/-- JavaScript `Math.round`: round half towards positive infinity. -/
def jsRound (x : ℚ) : ℤ := ⌊x + 1 / 2⌋

/-- Digit list to natural number, most significant first. -/
def digitsVal (cs : List Char) : ℕ :=
  cs.foldl (fun a c => 10 * a + (c.toNat - 48)) 0

/-- The numeric part of the regex `^(\d+(\.\d+)?)K$`: one or more digits,
optionally a dot followed by one or more digits, and `Number(...)` of the
matched text. -/
def parseNumChars (cs : List Char) : Option ℚ :=
  let ds := cs.takeWhile Char.isDigit
  let rest := cs.drop ds.length
  if ds.isEmpty then none
  else
    match rest with
    | [] => some (digitsVal ds)
    | '.' :: fs =>
        if fs.isEmpty then none
        else if fs.all Char.isDigit then
          some ((digitsVal ds : ℚ) + (digitsVal fs : ℚ) / 10 ^ fs.length)
        else none
    | _ => none

/-- Source `parseKaratLabel`: `karatStr.trim().toUpperCase()` matched against
`^(\d+(\.\d+)?)K$`; `"20K" -> 20`, anything else (e.g. `"?"`) -> `null`.
Trimming and upper-casing are done character-wise (the inputs are ASCII). -/
def parseKaratLabel (karatStr : String) : Option ℚ :=
  let cs := ((karatStr.toList.dropWhile Char.isWhitespace).reverse.dropWhile
      Char.isWhitespace).reverse.map Char.toUpper
  match cs.getLast? with
  | some 'K' => parseNumChars cs.dropLast
  | _ => none

/-- Source `BadgeInfo` (the `color` CSS classes are presentation and omitted). -/
structure BadgeInfo where
  label : String
  note : String
deriving DecidableEq

/-- Source `getBadgeForRange`: classify the reconciled range by the average of
its endpoints, thresholds 22 / 18 / 14 / 10, first match wins. -/
def getBadgeForRange (minK maxK : ℚ) : BadgeInfo :=
  let avg := (minK + maxK) / 2
  if 22 ≤ avg then
    ⟨"Sangat Tinggi", "Mendekati emas murni (umumnya 22K+)."⟩
  else if 18 ≤ avg then
    ⟨"Tinggi", "Kadar tinggi (umumnya 18K-21K)."⟩
  else if 14 ≤ avg then
    ⟨"Menengah", "Kadar menengah (umumnya 14K-17K)."⟩
  else if 10 ≤ avg then
    ⟨"Rendah", "Kadar rendah (umumnya 10K-13K)."⟩
  else
    ⟨"Sangat Rendah", "Kadar sangat rendah (di bawah 10K)."⟩

/-- Render a rational as JavaScript renders a number in a template string,
for the values reachable here: a nonnegative multiple of `1/2` prints as
its integer (`12` -> `"12"`) or with a `.5` suffix (`12.5` -> `"12.5"`). -/
def showK (q : ℚ) : String :=
  if q.den = 1 then toString q.num else toString (q.num / 2) ++ ".5"

/-- Result of the source's `computeFinalRange`: the reconciled bounds and the
display label `` `${minK}K–${maxK}K` ``. -/
structure FinalRange where
  minK : ℚ
  maxK : ℚ
  label : String
deriving DecidableEq

/-- `Math.round(x * 2) / 2` — round to the nearest half, half up
(the `roundHalf` closure inside the source's `computeFinalRange`). -/
def roundHalf (x : ℚ) : ℚ := (jsRound (x * 2) : ℚ) / 2

/-- Source `computeFinalRange`: pad each estimate by ±1K, clamp to `[0,24]`,
take the union (min of mins, max of maxes) when the density estimate exists,
round both bounds to the nearest half karat, and swap if `min > max`. -/
def computeFinalRange (karatFromPercent : ℚ) (karatFromDensity : Option ℚ) :
    FinalRange :=
  let pMin := clamp (karatFromPercent - 1) 0 24
  let pMax := clamp (karatFromPercent + 1) 0 24
  let minK0 :=
    match karatFromDensity with
    | none => pMin
    | some kd => min pMin (clamp (kd - 1) 0 24)
  let maxK0 :=
    match karatFromDensity with
    | none => pMax
    | some kd => max pMax (clamp (kd + 1) 0 24)
  let minK1 := roundHalf minK0
  let maxK1 := roundHalf maxK0
  let minK := if maxK1 < minK1 then maxK1 else minK1
  let maxK := if maxK1 < minK1 then minK1 else maxK1
  ⟨minK, maxK, showK minK ++ "K–" ++ showK maxK ++ "K"⟩

/-- JavaScript `x.toFixed(1)` for the nonnegative multiples of `1/10`
produced by the delta indicator. -/
def toFixed1 (q : ℚ) : String :=
  toString ⌊q⌋ ++ "." ++ toString (⌊q * 10⌋ - 10 * ⌊q⌋)

/-- JavaScript `x.toFixed(2)` for the nonnegative multiples of `1/100`
appearing as table bounds. -/
def toFixed2 (q : ℚ) : String :=
  let f := (⌊q * 100⌋ - 100 * ⌊q⌋).toNat
  toString ⌊q⌋ ++ "." ++ (if f < 10 then "0" else "") ++ toString f

/-- Result of the source's `getDeltaIndicator`: the formatted delta (`""` when
there is no density comparator), the `"OK"`/`"WASPADA"` label (`WASPADA` is the
source's WARN label) and the note. -/
structure DeltaInfo where
  delta : String
  label : String
  note : String
deriving DecidableEq

/-- Source `getDeltaIndicator`: with no density estimate the flag is `"OK"`
and the delta is empty; otherwise `delta = |kp − kd|` rounded to one decimal
(`Math.round(delta*10)/10`), flag `"WASPADA"` iff the rounded delta `≥ 2.0`. -/
def getDeltaIndicator (karatFromPercent : ℚ) (karatFromDensity : Option ℚ) :
    DeltaInfo :=
  match karatFromDensity with
  | none => ⟨"", "OK", "Tidak ada pembanding densitas (di luar range tabel)."⟩
  | some kd =>
    let delta := |karatFromPercent - kd|
    let deltaRounded := (jsRound (delta * 10) : ℚ) / 10
    if 2 ≤ deltaRounded then
      ⟨toFixed1 deltaRounded ++ "K", "WASPADA",
        "Selisih besar. Bisa dipengaruhi batu permata, solder, rongga, gelembung air, atau teknik penimbangan."⟩
    else
      ⟨toFixed1 deltaRounded ++ "K", "OK",
        "Selisih kecil. Hasil cenderung konsisten untuk screening cepat."⟩

/-- The source's static `conversionTable`: 19 karat bands, 24K down to 6K,
in the source's order. -/
def conversionTable : List ConversionRow :=
  [ ⟨"24K", 99.9, 19.20, 19.32⟩,
    ⟨"23K", 95.8, 18.60, 19.20⟩,
    ⟨"22K", 91.7, 17.70, 18.60⟩,
    ⟨"21K", 87.5, 16.90, 17.70⟩,
    ⟨"20K", 83.3, 16.20, 16.90⟩,
    ⟨"19K", 79.2, 15.60, 16.20⟩,
    ⟨"18K", 75.0, 15.20, 15.60⟩,
    ⟨"17K", 70.8, 14.70, 15.20⟩,
    ⟨"16K", 66.7, 14.20, 14.70⟩,
    ⟨"15K", 62.5, 13.70, 14.20⟩,
    ⟨"14K", 58.3, 13.00, 13.70⟩,
    ⟨"13K", 54.2, 12.60, 13.00⟩,
    ⟨"12K", 50.0, 12.00, 12.60⟩,
    ⟨"11K", 45.8, 11.60, 12.00⟩,
    ⟨"10K", 41.7, 11.30, 11.60⟩,
    ⟨"9K", 37.5, 10.90, 11.30⟩,
    ⟨"8K", 33.3, 10.50, 10.90⟩,
    ⟨"7K", 29.2, 10.10, 10.50⟩,
    ⟨"6K", 25.0, 9.70, 10.10⟩ ]

/-- The loop condition of the table scan:
`density >= row.minDensity && density <= row.maxDensity`. -/
def rowMatch (density : ℚ) (row : ConversionRow) : Bool :=
  decide (row.minDensity ≤ density) && decide (density ≤ row.maxDensity)

/-- The `for`-loop over `conversionTable` in `calculatePurity`: the first row
whose inclusive density range contains `density`, if any. -/
def lookupBand (density : ℚ) : Option ConversionRow :=
  conversionTable.find? (rowMatch density)

/-- Row of `conversionTable` by index (defaulting to the 24K row; used only
with in-range indices). -/
def tableRow (i : ℕ) : ConversionRow :=
  conversionTable.getD i ⟨"24K", 99.9, 19.20, 19.32⟩

/-- The water-density correction in `calculatePurity`: `none` models a
`waterTemp` string whose `parseFloat` is `NaN` (no correction). -/
def waterDensityOf (temp : Option ℚ) : ℚ :=
  match temp with
  | none => 1
  | some t => if t < 10 then 0.9997 else if 30 < t then 0.9957 else 1

/-- The error taxonomy of the spec: the source's two validation `alert`s are
`invalidInput`, the `volume <= 0` alert is `invalidVolume`. -/
inductive CalcError where
  | invalidInput
  | invalidVolume
deriving DecidableEq

/-- The fields the source assembles into its result (`CalcResult` in the
source), kept as exact numbers where the source formats them for display,
plus the intermediate `volume`.  `karatFromDensityLabel` is the source's
`karatFromDensity` string (`"?"` when no band matches) and `karatFromDensity`
is the parsed numeric value (`karatFromDensityNum`). -/
structure CalcResult where
  volume : ℚ
  density : ℚ
  goldPercent : ℚ
  karatFromPercent : ℚ
  karatFromDensityLabel : String
  karatRangeDensity : String
  karatFromDensity : Option ℚ
  finalRangeMin : ℚ
  finalRangeMax : ℚ
  finalRange : String
  badgeLabel : String
  deltaKarat : String
  deltaLabel : String
  deltaNote : String
deriving DecidableEq

/-- The table's absolute density bounds used by the percent estimator
(`minD` in the source, `~6K`). -/
def minD : ℚ := 9.7

/-- `maxD` in the source, `~24K`. -/
def maxD : ℚ := 19.32

/-- The success path of the source's `calculatePurity` (everything after the
validation and volume guards): water-density correction, volume, density,
linear percent estimate, table lookup, range reconciliation, badge and delta
indicator. -/
def computeResult (air water : ℚ) (temp : Option ℚ) : CalcResult :=
  let waterDensity := waterDensityOf temp
  let volume := (air - water) / waterDensity
  let density := air / volume
  let goldPercent := clamp ((density - minD) / (maxD - minD) * 100) 0 100
  let karatFromPercentNum := goldPercent * 24 / 100
  let band := lookupBand density
  let karatFromDensityLabel :=
    match band with
    | some row => row.karat
    | none => "?"
  let karatRangeDensity :=
    match band with
    | some row => toFixed2 row.minDensity ++ " - " ++ toFixed2 row.maxDensity ++ " g/cm³"
    | none => ""
  let karatFromDensityNum := parseKaratLabel karatFromDensityLabel
  let fin := computeFinalRange karatFromPercentNum karatFromDensityNum
  let badge := getBadgeForRange fin.minK fin.maxK
  let delta := getDeltaIndicator karatFromPercentNum karatFromDensityNum
  { volume := volume
    density := density
    goldPercent := goldPercent
    karatFromPercent := karatFromPercentNum
    karatFromDensityLabel := karatFromDensityLabel
    karatRangeDensity := karatRangeDensity
    karatFromDensity := karatFromDensityNum
    finalRangeMin := fin.minK
    finalRangeMax := fin.maxK
    finalRange := fin.label
    badgeLabel := badge.label
    deltaKarat := delta.delta
    deltaLabel := delta.label
    deltaNote := delta.note }

/-- The source's `calculatePurity`: `air`/`water`/`temp` are the `parseFloat`
of the three input fields (`none` = `NaN`).  Validation rejects a missing or
non-positive weight and `air <= water` (`InvalidInputError`), then the volume
guard rejects `volume <= 0` (`InvalidVolumeError`); otherwise the full result
is assembled. -/
def calculatePurity (air water temp : Option ℚ) : Except CalcError CalcResult :=
  match air, water with
  | some a, some w =>
    if a ≤ 0 ∨ w ≤ 0 then .error .invalidInput
    else if a ≤ w then .error .invalidInput
    else
      let waterDensity := waterDensityOf temp
      let volume := (a - w) / waterDensity
      if volume ≤ 0 then .error .invalidVolume
      else .ok (computeResult a w temp)
  | _, _ => .error .invalidInput

/-- Modelled from the spec (section 4.4, step 1-3, for the refinement claim):
the Range Reconciler described in the spec's own words — pad each estimate by
±1 karat with bounds clamped to `[0,24]`, merge by min of lowers / max of
uppers when the density estimate is present, then round each final bound to
the nearest 0.5 by round-half-up on `value×2` divided by 2. -/
def computeFinalRangeSpec (karatFromPercent : ℚ) (karatFromDensity : Option ℚ) :
    ℚ × ℚ :=
  let lo :=
    match karatFromDensity with
    | none => clamp (karatFromPercent - 1) 0 24
    | some kd => min (clamp (karatFromPercent - 1) 0 24) (clamp (kd - 1) 0 24)
  let hi :=
    match karatFromDensity with
    | none => clamp (karatFromPercent + 1) 0 24
    | some kd => max (clamp (karatFromPercent + 1) 0 24) (clamp (kd + 1) 0 24)
  (roundHalf lo, roundHalf hi)

/-! ## Helper lemmas -/

theorem clamp_le_hi (n lo hi : ℚ) : clamp n lo hi ≤ hi :=
  min_le_left _ _

theorem lo_le_clamp (n lo hi : ℚ) (h : lo ≤ hi) : lo ≤ clamp n lo hi :=
  le_min h (le_max_left _ _)

theorem clamp_mono {n m : ℚ} (lo hi : ℚ) (h : n ≤ m) :
    clamp n lo hi ≤ clamp m lo hi :=
  min_le_min le_rfl (max_le_max le_rfl h)

theorem clamp_eq {n lo hi : ℚ} (h1 : lo ≤ n) (h2 : n ≤ hi) :
    clamp n lo hi = n := by
  rw [clamp, max_eq_right h1, min_eq_right h2]

theorem roundHalf_mono {x y : ℚ} (h : x ≤ y) : roundHalf x ≤ roundHalf y := by
  have hf : ⌊x * 2 + 1 / 2⌋ ≤ ⌊y * 2 + 1 / 2⌋ :=
    Int.floor_mono (by linarith)
  have hf' : ((⌊x * 2 + 1 / 2⌋ : ℤ) : ℚ) ≤ ((⌊y * 2 + 1 / 2⌋ : ℤ) : ℚ) := by
    exact_mod_cast hf
  rw [roundHalf, roundHalf, jsRound, jsRound]
  linarith

theorem waterDensityOf_pos (temp : Option ℚ) : 0 < waterDensityOf temp := by
  cases temp with
  | none => norm_num [waterDensityOf]
  | some t =>
    simp only [waterDensityOf]
    split_ifs <;> norm_num

/-- Inversion for the success case: an `ok` result can only come from two
parsed weights through the full pipeline. -/
theorem calculatePurity_ok {air water temp : Option ℚ} {r : CalcResult}
    (h : calculatePurity air water temp = .ok r) :
    ∃ a w, air = some a ∧ water = some w ∧ r = computeResult a w temp := by
  cases air with
  | none => simp [calculatePurity] at h
  | some a =>
    cases water with
    | none => simp [calculatePurity] at h
    | some w =>
      simp only [calculatePurity] at h
      split_ifs at h
      exact ⟨a, w, rfl, rfl, (Except.ok.injEq _ _).mp h |>.symm⟩

/-! ## Claims -/

/-- C3: for every `karatFromPercent` and every (possibly null)
`karatFromDensity`, the reconciled output of `computeFinalRange` satisfies
`finalRangeMin ≤ finalRangeMax` after the defensive normalization. -/
theorem final_range_min_le_max (kp : ℚ) (kd : Option ℚ) :
    (computeFinalRange kp kd).minK ≤ (computeFinalRange kp kd).maxK := by
  simp only [computeFinalRange]
  split_ifs with h
  · exact le_of_lt h
  · exact not_lt.mp h

/-- C2: for `karatFromPercent ∈ [0,24]` and any `karatFromDensity` (number or
null), `computeFinalRange` computes exactly the spec's reconciliation: padded
intervals clamped to `[0,24]`, union-merged, then each bound rounded to the
nearest 0.5 by round-half-up on `value×2` over 2 (the defensive swap never
fires because the pre-rounding bounds are ordered and rounding is monotone). -/
theorem final_range_matches_spec (kp : ℚ) (kd : Option ℚ)
    (h0 : 0 ≤ kp) (h24 : kp ≤ 24) :
    (computeFinalRange kp kd).minK = (computeFinalRangeSpec kp kd).1 ∧
    (computeFinalRange kp kd).maxK = (computeFinalRangeSpec kp kd).2 := by
  have hlohi :
      (match kd with
        | none => clamp (kp - 1) 0 24
        | some k => min (clamp (kp - 1) 0 24) (clamp (k - 1) 0 24)) ≤
      (match kd with
        | none => clamp (kp + 1) 0 24
        | some k => max (clamp (kp + 1) 0 24) (clamp (k + 1) 0 24)) := by
    cases kd with
    | none => exact clamp_mono 0 24 (by linarith)
    | some k =>
      calc min (clamp (kp - 1) 0 24) (clamp (k - 1) 0 24)
          ≤ clamp (kp - 1) 0 24 := min_le_left _ _
        _ ≤ clamp (kp + 1) 0 24 := clamp_mono 0 24 (by linarith)
        _ ≤ max (clamp (kp + 1) 0 24) (clamp (k + 1) 0 24) := le_max_left _ _
  have hround := roundHalf_mono hlohi
  simp only [computeFinalRange, computeFinalRangeSpec]
  cases kd with
  | none =>
    simp only at hround ⊢
    rw [if_neg (not_lt.mpr hround), if_neg (not_lt.mpr hround)]
    exact ⟨rfl, rfl⟩
  | some k =>
    simp only at hround ⊢
    rw [if_neg (not_lt.mpr hround), if_neg (not_lt.mpr hround)]
    exact ⟨rfl, rfl⟩

/-- C1: for `airWeight = 10.50`, `waterWeight = 9.80`, `waterTemperatureC = 20`
the computation succeeds with `volume = 0.70`, `density = 15.00`, a table
estimate of 17K, and a final reconciled range `[12, 18]` displayed
`"12K–18K"`. -/
theorem scenario1_exact_values :
    calculatePurity (some 10.5) (some 9.8) (some 20) =
      Except.ok (computeResult 10.5 9.8 (some 20)) ∧
    (computeResult 10.5 9.8 (some 20)).volume = 0.7 ∧
    (computeResult 10.5 9.8 (some 20)).density = 15 ∧
    (computeResult 10.5 9.8 (some 20)).karatFromDensity = some 17 ∧
    (computeResult 10.5 9.8 (some 20)).finalRangeMin = 12 ∧
    (computeResult 10.5 9.8 (some 20)).finalRangeMax = 18 ∧
    (computeResult 10.5 9.8 (some 20)).finalRange = "12K–18K" := by
  have hwd : waterDensityOf (some 20) = 1 := by norm_num [waterDensityOf]
  have hden : (10.5 : ℚ) / (((10.5 : ℚ) - 9.8) / waterDensityOf (some 20)) = 15 := by
    rw [hwd]; norm_num
  have hlook : lookupBand 15 = some ⟨"17K", 70.8, 14.70, 15.20⟩ := by
    norm_num [lookupBand, conversionTable, rowMatch]
  have hgp : clamp (((15 : ℚ) - minD) / (maxD - minD) * 100) 0 100 = 26500/481 := by
    have h1 : ((15 : ℚ) - minD) / (maxD - minD) * 100 = 26500/481 := by
      norm_num [minD, maxD]
    rw [h1, clamp_eq] <;> norm_num
  have hkp : (26500/481 : ℚ) * 24 / 100 = 6360/481 := by norm_num
  have hparse : parseKaratLabel "17K" = some 17 := rfl
  have hfr : computeFinalRange (6360/481) (some 17) = ⟨12, 18, "12K–18K"⟩ := by
    simp only [computeFinalRange]
    have e1 : clamp ((6360/481 : ℚ) - 1) 0 24 = 5879/481 := by
      rw [show (6360/481 : ℚ) - 1 = 5879/481 by norm_num, clamp_eq] <;> norm_num
    have e2 : clamp ((6360/481 : ℚ) + 1) 0 24 = 6841/481 := by
      rw [show (6360/481 : ℚ) + 1 = 6841/481 by norm_num, clamp_eq] <;> norm_num
    have e3 : clamp ((17 : ℚ) - 1) 0 24 = 16 := by
      rw [show (17 : ℚ) - 1 = 16 by norm_num, clamp_eq] <;> norm_num
    have e4 : clamp ((17 : ℚ) + 1) 0 24 = 18 := by
      rw [show (17 : ℚ) + 1 = 18 by norm_num, clamp_eq] <;> norm_num
    rw [e1, e2, e3, e4]
    rw [min_eq_left (by norm_num : (5879/481 : ℚ) ≤ 16),
        max_eq_right (by norm_num : (6841/481 : ℚ) ≤ 18)]
    have e7 : roundHalf (5879/481 : ℚ) = 12 := by
      rw [roundHalf, jsRound,
        show (5879/481 : ℚ) * 2 + 1/2 = 23997/962 by norm_num,
        show ⌊(23997/962 : ℚ)⌋ = 24 from by rw [Int.floor_eq_iff]; norm_num]
      norm_num
    have e8 : roundHalf (18 : ℚ) = 18 := by
      rw [roundHalf, jsRound,
        show (18 : ℚ) * 2 + 1/2 = 73/2 by norm_num,
        show ⌊(73/2 : ℚ)⌋ = 36 from by rw [Int.floor_eq_iff]; norm_num]
      norm_num
    rw [e7, e8]
    norm_num
    rfl
  refine ⟨by norm_num [calculatePurity, waterDensityOf], ?_, ?_, ?_, ?_, ?_, ?_⟩
  · simp only [computeResult]
    norm_num [waterDensityOf]
  · simp only [computeResult]
    norm_num [waterDensityOf]
  · simp only [computeResult, hden, hlook]
    rfl
  · simp only [computeResult, hden, hlook, hgp, hkp, hparse]
    rw [hfr]
  · simp only [computeResult, hden, hlook, hgp, hkp, hparse]
    rw [hfr]
  · simp only [computeResult, hden, hlook, hgp, hkp, hparse]
    rw [hfr]

/-- Witness for C2 at `karatFromPercent = 13`, `karatFromDensity = 17`. -/
theorem final_range_matches_spec_witness :
    (computeFinalRange 13 (some 17)).minK = (computeFinalRangeSpec 13 (some 17)).1 ∧
    (computeFinalRange 13 (some 17)).maxK = (computeFinalRangeSpec 13 (some 17)).2 :=
  final_range_matches_spec 13 (some 17) (by norm_num) (by norm_num)

/-- C4: the computation fails with `InvalidInputError` — producing no result —
exactly when a weight is non-numeric (`none`, i.e. `parseFloat` gave `NaN`)
or `≤ 0`, or `airWeight ≤ waterWeight`; in particular equal weights
`air = 1, water = 1` fail this way.  The error is raised before any density
computation: the embedding returns the error with no `CalcResult`. -/
theorem invalid_input_error_iff :
    (∀ air water temp : Option ℚ,
      calculatePurity air water temp = .error .invalidInput ↔
        (match air, water with
          | some a, some w => a ≤ 0 ∨ w ≤ 0 ∨ a ≤ w
          | _, _ => True)) ∧
    calculatePurity (some 1) (some 1) (some 20) = .error .invalidInput := by
  constructor
  · intro air water temp
    cases air with
    | none => simp [calculatePurity]
    | some a =>
      cases water with
      | none => simp [calculatePurity]
      | some w =>
        simp only [calculatePurity]
        split_ifs with h1 h2 h3
        · exact iff_of_true rfl (by tauto)
        · exact iff_of_true rfl (by tauto)
        · refine iff_of_false (by simp) ?_
          push_neg at h1 h2
          rintro (h | h | h) <;> linarith [h1.1, h1.2]
        · refine iff_of_false (by simp) ?_
          push_neg at h1 h2
          rintro (h | h | h) <;> linarith [h1.1, h1.2]
  · norm_num [calculatePurity]

/-- Witness for C4: equal weights (air = water = 1) are rejected as invalid
input, obtained through the characterizing equivalence. -/
theorem invalid_input_error_iff_witness :
    calculatePurity (some 1) (some 1) (some 20) = .error .invalidInput :=
  (invalid_input_error_iff.1 (some 1) (some 1) (some 20)).mpr (by norm_num)

/-- C6: every successful result has
`goldPercent = clamp((density − 9.7)/(19.32 − 9.7)·100, 0, 100) ∈ [0,100]`
and `karatFromPercent = goldPercent·24/100 ∈ [0,24]`. -/
theorem gold_percent_karat_bounds (air water temp : Option ℚ) (r : CalcResult)
    (h : calculatePurity air water temp = .ok r) :
    r.goldPercent = clamp ((r.density - minD) / (maxD - minD) * 100) 0 100 ∧
    0 ≤ r.goldPercent ∧ r.goldPercent ≤ 100 ∧
    r.karatFromPercent = r.goldPercent * 24 / 100 ∧
    0 ≤ r.karatFromPercent ∧ r.karatFromPercent ≤ 24 := by
  obtain ⟨a, w, -, -, rfl⟩ := calculatePurity_ok h
  simp only [computeResult]
  refine ⟨trivial, lo_le_clamp _ 0 100 (by norm_num), clamp_le_hi _ 0 100, trivial, ?_, ?_⟩
  · have h0 := lo_le_clamp ((a / ((a - w) / waterDensityOf temp) - minD) /
      (maxD - minD) * 100) 0 100 (by norm_num)
    linarith
  · have h100 := clamp_le_hi ((a / ((a - w) / waterDensityOf temp) - minD) /
      (maxD - minD) * 100) 0 100
    linarith

/-- Witness for C6 at the Scenario 1 input. -/
theorem gold_percent_karat_bounds_witness :
    (computeResult 10.5 9.8 (some 20)).goldPercent =
      clamp (((computeResult 10.5 9.8 (some 20)).density - minD) /
        (maxD - minD) * 100) 0 100 ∧
    0 ≤ (computeResult 10.5 9.8 (some 20)).goldPercent ∧
    (computeResult 10.5 9.8 (some 20)).goldPercent ≤ 100 ∧
    (computeResult 10.5 9.8 (some 20)).karatFromPercent =
      (computeResult 10.5 9.8 (some 20)).goldPercent * 24 / 100 ∧
    0 ≤ (computeResult 10.5 9.8 (some 20)).karatFromPercent ∧
    (computeResult 10.5 9.8 (some 20)).karatFromPercent ≤ 24 :=
  gold_percent_karat_bounds (some 10.5) (some 9.8) (some 20) _
    (by norm_num [calculatePurity, waterDensityOf])

/-- C9: validated inputs (`0 < air`, `0 < water`, `water < air`) always give a
strictly positive volume and density, and the `InvalidVolumeError` branch is
unreachable for every input whatsoever. -/
theorem volume_density_positive (a w : ℚ) (temp : Option ℚ)
    (ha : 0 < a) (hw : 0 < w) (hwa : w < a) :
    0 < (computeResult a w temp).volume ∧
    0 < (computeResult a w temp).density ∧
    calculatePurity (some a) (some w) temp = .ok (computeResult a w temp) ∧
    ∀ air water t : Option ℚ, calculatePurity air water t ≠ .error .invalidVolume := by
  have key : ∀ a' w' : ℚ, ∀ t : Option ℚ, w' < a' →
      0 < (a' - w') / waterDensityOf t := fun a' w' t h =>
    div_pos (by linarith) (waterDensityOf_pos t)
  have hv := key a w temp hwa
  refine ⟨?_, ?_, ?_, ?_⟩
  · simp only [computeResult]
    exact hv
  · simp only [computeResult]
    exact div_pos ha hv
  · simp only [calculatePurity]
    split_ifs with h1 h2 h3
    · rcases h1 with h | h <;> linarith
    · linarith
    · linarith
    · rfl
  · intro air water t
    cases air with
    | none => simp [calculatePurity]
    | some a' =>
      cases water with
      | none => simp [calculatePurity]
      | some w' =>
        simp only [calculatePurity]
        split_ifs with h1 h2 h3
        · simp
        · simp
        · push_neg at h1 h2
          exact absurd h3 (not_le.mpr (key a' w' t h2))
        · simp

/-- Witness for C9 at air = 2, water = 1, no temperature. -/
theorem volume_density_positive_witness :
    0 < (computeResult 2 1 none).volume ∧
    0 < (computeResult 2 1 none).density ∧
    calculatePurity (some 2) (some 1) none = .ok (computeResult 2 1 none) ∧
    ∀ air water t : Option ℚ, calculatePurity air water t ≠ .error .invalidVolume :=
  volume_density_positive 2 1 none (by norm_num) (by norm_num) (by norm_num)

/-- The numeric karat of a band, via the source's label parsing (every table
label parses, so the default is never used on table rows). -/
def rowKaratVal (r : ConversionRow) : ℚ :=
  (parseKaratLabel r.karat).getD 0

/-- Ordering of two bands as they appear in the table: the later band `y` sits
at or below the earlier band `x` in density, is itself a well-formed interval,
and has at most `x`'s karat. -/
def bandOrder (x y : ConversionRow) : Prop :=
  y.maxDensity ≤ x.minDensity ∧ y.minDensity ≤ y.maxDensity ∧
    rowKaratVal y ≤ rowKaratVal x

theorem bandOrder_trans : Transitive bandOrder := by
  rintro x y z ⟨h1, h2, h3⟩ ⟨g1, g2, g3⟩
  exact ⟨le_trans g1 (le_trans h2 h1), g2, le_trans g3 h3⟩

theorem rowKaratVal_mk (s : String) (p mn mx : ℚ) :
    rowKaratVal ⟨s, p, mn, mx⟩ = (parseKaratLabel s).getD 0 := rfl

theorem pk24 : parseKaratLabel "24K" = some 24 := rfl
theorem pk23 : parseKaratLabel "23K" = some 23 := rfl
theorem pk22 : parseKaratLabel "22K" = some 22 := rfl
theorem pk21 : parseKaratLabel "21K" = some 21 := rfl
theorem pk20 : parseKaratLabel "20K" = some 20 := rfl
theorem pk19 : parseKaratLabel "19K" = some 19 := rfl
theorem pk18 : parseKaratLabel "18K" = some 18 := rfl
theorem pk17 : parseKaratLabel "17K" = some 17 := rfl
theorem pk16 : parseKaratLabel "16K" = some 16 := rfl
theorem pk15 : parseKaratLabel "15K" = some 15 := rfl
theorem pk14 : parseKaratLabel "14K" = some 14 := rfl
theorem pk13 : parseKaratLabel "13K" = some 13 := rfl
theorem pk12 : parseKaratLabel "12K" = some 12 := rfl
theorem pk11 : parseKaratLabel "11K" = some 11 := rfl
theorem pk10 : parseKaratLabel "10K" = some 10 := rfl
theorem pk9 : parseKaratLabel "9K" = some 9 := rfl
theorem pk8 : parseKaratLabel "8K" = some 8 := rfl
theorem pk7 : parseKaratLabel "7K" = some 7 := rfl
theorem pk6 : parseKaratLabel "6K" = some 6 := rfl

/-- The static table is pairwise ordered: later bands lie at or below earlier
bands in density and in karat. -/
theorem conversionTable_pairwise : conversionTable.Pairwise bandOrder := by
  haveI : IsTrans ConversionRow bandOrder := ⟨bandOrder_trans⟩
  rw [← List.chain'_iff_pairwise]
  simp only [conversionTable, List.chain'_cons, List.chain'_singleton, and_true]
  norm_num [bandOrder, rowKaratVal_mk, Option.getD_some,
    pk24, pk23, pk22, pk21, pk20, pk19, pk18, pk17, pk16, pk15, pk14, pk13,
    pk12, pk11, pk10, pk9, pk8, pk7, pk6]

/-- First-match search over a band-ordered list is monotone in the probed
density. -/
theorem find?_mono_aux (d1 d2 : ℚ) (h12 : d1 ≤ d2) :
    ∀ l : List ConversionRow, l.Pairwise bandOrder →
      ∀ r1 r2 : ConversionRow, l.find? (rowMatch d1) = some r1 →
        l.find? (rowMatch d2) = some r2 → rowKaratVal r1 ≤ rowKaratVal r2 := by
  intro l
  induction l with
  | nil =>
    intro _ r1 r2 h1 _
    simp at h1
  | cons x xs ih =>
    intro hp r1 r2 h1 h2
    rw [List.pairwise_cons] at hp
    obtain ⟨hx, hxs⟩ := hp
    by_cases hm1 : rowMatch d1 x
    · rw [List.find?_cons_of_pos _ hm1] at h1
      cases h1
      by_cases hm2 : rowMatch d2 x
      · rw [List.find?_cons_of_pos _ hm2] at h2
        cases h2
        exact le_refl _
      · rw [List.find?_cons_of_neg _ hm2] at h2
        have hr2mem := List.mem_of_find?_eq_some h2
        have hmatch2 := List.find?_some h2
        simp only [rowMatch, Bool.and_eq_true, decide_eq_true_eq] at hmatch2 hm1 hm2
        push_neg at hm2
        have hd2 := hm2 (le_trans hm1.1 h12)
        have hle := (hx r2 hr2mem).1
        linarith [hmatch2.2, hm1.2]
    · rw [List.find?_cons_of_neg _ hm1] at h1
      by_cases hm2 : rowMatch d2 x
      · rw [List.find?_cons_of_pos _ hm2] at h2
        cases h2
        exact (hx r1 (List.mem_of_find?_eq_some h1)).2.2
      · rw [List.find?_cons_of_neg _ hm2] at h2
        exact ih hxs r1 r2 h1 h2

/-- C7: table lookup is monotone — if `d1 ≤ d2` and both densities match a
band, the karat of `d2`'s band is at least the karat of `d1`'s band. -/
theorem lookup_monotone (d1 d2 : ℚ) (r1 r2 : ConversionRow) (h12 : d1 ≤ d2)
    (h1 : lookupBand d1 = some r1) (h2 : lookupBand d2 = some r2) :
    rowKaratVal r1 ≤ rowKaratVal r2 :=
  find?_mono_aux d1 d2 h12 conversionTable conversionTable_pairwise r1 r2 h1 h2

/-- Witness for C7: density 12.3 matches the 12K band and density 15 the 17K
band, and the karats are ordered. -/
theorem lookup_monotone_witness :
    rowKaratVal ⟨"12K", 50.0, 12.00, 12.60⟩ ≤ rowKaratVal ⟨"17K", 70.8, 14.70, 15.20⟩ :=
  lookup_monotone 12.3 15 _ _ (by norm_num)
    (by norm_num [lookupBand, conversionTable, rowMatch])
    (by norm_num [lookupBand, conversionTable, rowMatch])

/-- Every density between the table's extreme bounds (inclusive) is covered
by some band: the bands are contiguous. -/
theorem lookupBand_isSome_of_mem_range (d : ℚ) (h1 : minD ≤ d) (h2 : d ≤ maxD) :
    (lookupBand d).isSome := by
  simp only [minD] at h1
  simp only [maxD] at h2
  rw [lookupBand, List.find?_isSome]
  have match_of : ∀ r : ConversionRow, r.minDensity ≤ d → d ≤ r.maxDensity →
      rowMatch d r = true := by
    intro r ha hb
    simp only [rowMatch, Bool.and_eq_true, decide_eq_true_eq]
    exact ⟨ha, hb⟩
  rcases le_or_lt (19.20 : ℚ) d with h | hb0
  · exact ⟨⟨"24K", 99.9, 19.20, 19.32⟩, by norm_num [conversionTable],
      match_of _ h (by norm_num; linarith)⟩
  rcases le_or_lt (18.60 : ℚ) d with h | hb1
  · exact ⟨⟨"23K", 95.8, 18.60, 19.20⟩, by norm_num [conversionTable],
      match_of _ h (le_of_lt hb0)⟩
  rcases le_or_lt (17.70 : ℚ) d with h | hb2
  · exact ⟨⟨"22K", 91.7, 17.70, 18.60⟩, by norm_num [conversionTable],
      match_of _ h (le_of_lt hb1)⟩
  rcases le_or_lt (16.90 : ℚ) d with h | hb3
  · exact ⟨⟨"21K", 87.5, 16.90, 17.70⟩, by norm_num [conversionTable],
      match_of _ h (le_of_lt hb2)⟩
  rcases le_or_lt (16.20 : ℚ) d with h | hb4
  · exact ⟨⟨"20K", 83.3, 16.20, 16.90⟩, by norm_num [conversionTable],
      match_of _ h (le_of_lt hb3)⟩
  rcases le_or_lt (15.60 : ℚ) d with h | hb5
  · exact ⟨⟨"19K", 79.2, 15.60, 16.20⟩, by norm_num [conversionTable],
      match_of _ h (le_of_lt hb4)⟩
  rcases le_or_lt (15.20 : ℚ) d with h | hb6
  · exact ⟨⟨"18K", 75.0, 15.20, 15.60⟩, by norm_num [conversionTable],
      match_of _ h (le_of_lt hb5)⟩
  rcases le_or_lt (14.70 : ℚ) d with h | hb7
  · exact ⟨⟨"17K", 70.8, 14.70, 15.20⟩, by norm_num [conversionTable],
      match_of _ h (le_of_lt hb6)⟩
  rcases le_or_lt (14.20 : ℚ) d with h | hb8
  · exact ⟨⟨"16K", 66.7, 14.20, 14.70⟩, by norm_num [conversionTable],
      match_of _ h (le_of_lt hb7)⟩
  rcases le_or_lt (13.70 : ℚ) d with h | hb9
  · exact ⟨⟨"15K", 62.5, 13.70, 14.20⟩, by norm_num [conversionTable],
      match_of _ h (le_of_lt hb8)⟩
  rcases le_or_lt (13.00 : ℚ) d with h | hb10
  · exact ⟨⟨"14K", 58.3, 13.00, 13.70⟩, by norm_num [conversionTable],
      match_of _ h (le_of_lt hb9)⟩
  rcases le_or_lt (12.60 : ℚ) d with h | hb11
  · exact ⟨⟨"13K", 54.2, 12.60, 13.00⟩, by norm_num [conversionTable],
      match_of _ h (le_of_lt hb10)⟩
  rcases le_or_lt (12.00 : ℚ) d with h | hb12
  · exact ⟨⟨"12K", 50.0, 12.00, 12.60⟩, by norm_num [conversionTable],
      match_of _ h (le_of_lt hb11)⟩
  rcases le_or_lt (11.60 : ℚ) d with h | hb13
  · exact ⟨⟨"11K", 45.8, 11.60, 12.00⟩, by norm_num [conversionTable],
      match_of _ h (le_of_lt hb12)⟩
  rcases le_or_lt (11.30 : ℚ) d with h | hb14
  · exact ⟨⟨"10K", 41.7, 11.30, 11.60⟩, by norm_num [conversionTable],
      match_of _ h (le_of_lt hb13)⟩
  rcases le_or_lt (10.90 : ℚ) d with h | hb15
  · exact ⟨⟨"9K", 37.5, 10.90, 11.30⟩, by norm_num [conversionTable],
      match_of _ h (le_of_lt hb14)⟩
  rcases le_or_lt (10.50 : ℚ) d with h | hb16
  · exact ⟨⟨"8K", 33.3, 10.50, 10.90⟩, by norm_num [conversionTable],
      match_of _ h (le_of_lt hb15)⟩
  rcases le_or_lt (10.10 : ℚ) d with h | hb17
  · exact ⟨⟨"7K", 29.2, 10.10, 10.50⟩, by norm_num [conversionTable],
      match_of _ h (le_of_lt hb16)⟩
  · exact ⟨⟨"6K", 25.0, 9.70, 10.10⟩, by norm_num [conversionTable],
      match_of _ (by norm_num; linarith) (le_of_lt hb17)⟩

/-- C10: the 19 bands are contiguous (each band's `maxDensity` equals the
next-higher band's `minDensity`), lookup fails exactly outside
`[9.70, 19.32]`, every table label parses to an integer karat in `[6, 24]`,
and the parsed `karatFromDensity` of a result is null iff no band matched
its density. -/
theorem table_contiguous_cover :
    (∀ i : Fin 18, (tableRow ((i : ℕ) + 1)).maxDensity = (tableRow (i : ℕ)).minDensity) ∧
    (∀ d : ℚ, lookupBand d = none ↔ (d < minD ∨ maxD < d)) ∧
    (∀ i : Fin 19, ∃ n : ℕ, 6 ≤ n ∧ n ≤ 24 ∧
      parseKaratLabel (tableRow (i : ℕ)).karat = some (n : ℚ)) ∧
    (∀ a w : ℚ, ∀ temp : Option ℚ,
      (computeResult a w temp).karatFromDensity = none ↔
        lookupBand (computeResult a w temp).density = none) := by
  refine ⟨?_, ?_, ?_, ?_⟩
  · intro i
    fin_cases i <;> rfl
  · intro d
    constructor
    · intro hnone
      by_contra hc
      push_neg at hc
      have hs := lookupBand_isSome_of_mem_range d hc.1 hc.2
      rw [hnone] at hs
      simp at hs
    · rintro (hlow | hhigh)
      · simp only [minD] at hlow
        rw [lookupBand]
        refine List.find?_eq_none.mpr ?_
        intro x hx
        simp only [conversionTable, List.mem_cons, List.not_mem_nil, or_false] at hx
        rcases hx with rfl|rfl|rfl|rfl|rfl|rfl|rfl|rfl|rfl|rfl|rfl|rfl|rfl|rfl|rfl|rfl|rfl|rfl|rfl <;>
          (simp only [rowMatch, Bool.and_eq_true, decide_eq_true_eq]; rintro ⟨ha, hb⟩; linarith)
      · simp only [maxD] at hhigh
        rw [lookupBand]
        refine List.find?_eq_none.mpr ?_
        intro x hx
        simp only [conversionTable, List.mem_cons, List.not_mem_nil, or_false] at hx
        rcases hx with rfl|rfl|rfl|rfl|rfl|rfl|rfl|rfl|rfl|rfl|rfl|rfl|rfl|rfl|rfl|rfl|rfl|rfl|rfl <;>
          (simp only [rowMatch, Bool.and_eq_true, decide_eq_true_eq]; rintro ⟨ha, hb⟩; linarith)
  · intro i
    fin_cases i
    · exact ⟨24, by norm_num, by norm_num, rfl⟩
    · exact ⟨23, by norm_num, by norm_num, rfl⟩
    · exact ⟨22, by norm_num, by norm_num, rfl⟩
    · exact ⟨21, by norm_num, by norm_num, rfl⟩
    · exact ⟨20, by norm_num, by norm_num, rfl⟩
    · exact ⟨19, by norm_num, by norm_num, rfl⟩
    · exact ⟨18, by norm_num, by norm_num, rfl⟩
    · exact ⟨17, by norm_num, by norm_num, rfl⟩
    · exact ⟨16, by norm_num, by norm_num, rfl⟩
    · exact ⟨15, by norm_num, by norm_num, rfl⟩
    · exact ⟨14, by norm_num, by norm_num, rfl⟩
    · exact ⟨13, by norm_num, by norm_num, rfl⟩
    · exact ⟨12, by norm_num, by norm_num, rfl⟩
    · exact ⟨11, by norm_num, by norm_num, rfl⟩
    · exact ⟨10, by norm_num, by norm_num, rfl⟩
    · exact ⟨9, by norm_num, by norm_num, rfl⟩
    · exact ⟨8, by norm_num, by norm_num, rfl⟩
    · exact ⟨7, by norm_num, by norm_num, rfl⟩
    · exact ⟨6, by norm_num, by norm_num, rfl⟩
  · intro a w temp
    cases hb : lookupBand (a / ((a - w) / waterDensityOf temp)) with
    | none =>
      simp only [computeResult, hb]
      exact iff_of_true rfl trivial
    | some row =>
      have hmem : row ∈ conversionTable := List.mem_of_find?_eq_some hb
      have hps : (parseKaratLabel row.karat).isSome := by
        simp only [conversionTable, List.mem_cons, List.not_mem_nil, or_false] at hmem
        rcases hmem with rfl|rfl|rfl|rfl|rfl|rfl|rfl|rfl|rfl|rfl|rfl|rfl|rfl|rfl|rfl|rfl|rfl|rfl|rfl <;> rfl
      simp only [computeResult, hb]
      constructor
      · intro h
        rw [h] at hps
        simp at hps
      · intro h
        exact absurd h (by simp)

/-- Witness for C10: density 5 lies below the table, so lookup is
indeterminate, obtained from the characterizing equivalence. -/
theorem table_contiguous_cover_witness : lookupBand 5 = none :=
  (table_contiguous_cover.2.1 5).mpr (Or.inl (by norm_num [minD]))

/-- C5: the table has 19 bands; the scan returns the first band whose
inclusive `[minDensity, maxDensity]` range contains the density; a density on
a boundary shared by two adjacent bands matches the earlier (higher-karat)
band; when no band contains the density the scan yields `none` and the result
carries the indeterminate values (`"?"` label, empty range string, null
numeric karat) rather than an error. -/
theorem table_lookup_first_match :
    conversionTable.length = 19 ∧
    (∀ d : ℚ, ∀ r : ConversionRow, lookupBand d = some r →
      r ∈ conversionTable ∧ r.minDensity ≤ d ∧ d ≤ r.maxDensity) ∧
    (∀ i : Fin 18, lookupBand (tableRow ((i : ℕ) + 1)).maxDensity =
      some (tableRow (i : ℕ))) ∧
    (∀ d : ℚ, (∀ r ∈ conversionTable, ¬(r.minDensity ≤ d ∧ d ≤ r.maxDensity)) →
      lookupBand d = none) ∧
    (∀ a w : ℚ, ∀ temp : Option ℚ,
      lookupBand (computeResult a w temp).density = none →
        (computeResult a w temp).karatFromDensityLabel = "?" ∧
        (computeResult a w temp).karatRangeDensity = "" ∧
        (computeResult a w temp).karatFromDensity = none) := by
  refine ⟨rfl, ?_, ?_, ?_, ?_⟩
  · intro d r h
    refine ⟨List.mem_of_find?_eq_some h, ?_⟩
    have hm := List.find?_some h
    simp only [rowMatch, Bool.and_eq_true, decide_eq_true_eq] at hm
    exact hm
  · intro i
    fin_cases i <;> norm_num [tableRow, conversionTable, lookupBand, rowMatch]
  · intro d hall
    rw [lookupBand]
    refine List.find?_eq_none.mpr ?_
    intro x hx
    simp only [rowMatch, Bool.and_eq_true, decide_eq_true_eq]
    exact hall x hx
  · intro a w temp h
    have hb : lookupBand (a / ((a - w) / waterDensityOf temp)) = none := by
      have := h
      simpa only [computeResult] using this
    simp only [computeResult, hb]
    exact ⟨trivial, trivial, rfl⟩

/-- Witness for C5: density 15 is found in the 17K band, which contains it. -/
theorem table_lookup_first_match_witness :
    (⟨"17K", 70.8, 14.70, 15.20⟩ : ConversionRow) ∈ conversionTable ∧
    (14.70 : ℚ) ≤ 15 ∧ (15 : ℚ) ≤ 15.20 :=
  table_lookup_first_match.2.1 15 ⟨"17K", 70.8, 14.70, 15.20⟩
    (by norm_num [lookupBand, conversionTable, rowMatch])

/-- C8: with a density comparator, the delta indicator shows
`round(|karatFromPercent − karatFromDensity| × 10)/10` and flags `"WASPADA"`
(the source's WARN label) exactly when that rounded delta is `≥ 2.0`
(boundary inclusive); with no comparator it is `"OK"` with an empty delta. -/
theorem delta_indicator_spec :
    (∀ kp : ℚ, getDeltaIndicator kp none =
      ⟨"", "OK", "Tidak ada pembanding densitas (di luar range tabel)."⟩) ∧
    ∀ kp kd : ℚ,
      (getDeltaIndicator kp (some kd)).delta =
        toFixed1 ((jsRound (|kp - kd| * 10) : ℚ) / 10) ++ "K" ∧
      ((getDeltaIndicator kp (some kd)).label = "WASPADA" ↔
        2 ≤ (jsRound (|kp - kd| * 10) : ℚ) / 10) := by
  constructor
  · intro kp
    rfl
  · intro kp kd
    simp only [getDeltaIndicator]
    split_ifs with h
    · exact ⟨rfl, iff_of_true rfl h⟩
    · exact ⟨rfl, iff_of_false (by simp) h⟩

/-- Witness for C8 at the exact boundary: `karatFromPercent = 10`,
`karatFromDensity = 12` give a rounded delta of exactly 2.0 and the WARN
label. -/
theorem delta_indicator_spec_witness :
    (getDeltaIndicator 10 (some 12)).label = "WASPADA" :=
  ((delta_indicator_spec.2 10 12).2).mpr (by
    have h1 : |(10 : ℚ) - 12| * 10 + 1 / 2 = 41 / 2 := by
      rw [show |(10 : ℚ) - 12| = 2 by rw [abs_of_nonpos] <;> norm_num]
      norm_num
    have h2 : jsRound (|(10 : ℚ) - 12| * 10) = 20 := by
      rw [jsRound, h1]
      rw [show ⌊(41 / 2 : ℚ)⌋ = 20 from by rw [Int.floor_eq_iff] <;> norm_num]
    rw [h2]
    norm_num)

end GoldPurity
